import Mathlib

/-!
Verification of the ivanchat model-export scripts.

This file gives a shallow embedding of the three Python scripts

  * `src/create_tf_serving_model.py`          (mock length-based predictor)
  * `src/models/toxicity_model/create_toxicity_model.py`
                                              (random-weights Keras predictor)
  * `src/models/scripts/download_pretrained_model.py`
                                              (TF-Hub download and re-export)

and proves the specification's claims about them.  Tensors of rank 1 are
embedded as Lean lists; the rank-2 `[n, 1]` output of the random-weights
model is embedded as the list of its `n` single-entry rows.  float32
arithmetic is idealised as exact rational (mock script) or real
(random-weights script) arithmetic.
-/

set_option maxRecDepth 8192

namespace IvanChat

/-! ## Tensor values and TensorFlow string/math ops

`tf.strings.length` counts UTF-8 bytes (its default unit is `BYTE`).
-/

/-- A named output tensor of the mock script: the dict values in
`predict` are an int32 tensor (`text_length`) and float32 tensors
(`toxicity_score`, `predictions`). -/
inductive TVal
  | nats (xs : List ℕ)
  | rats (xs : List ℚ)
  deriving DecidableEq

/-- `tf.strings.length(input_text)`: byte length of every element. -/
def tfStringsLength (xs : List String) : List ℕ :=
  xs.map String.utf8ByteSize

/-- `tf.cast(lengths, tf.float32)`, idealised to exact rationals. -/
def tfCastFloat (xs : List ℕ) : List ℚ :=
  xs.map (fun n => (Nat.cast n : ℚ))

/-- Elementwise division of a tensor by a scalar (`lengths_float / 100.0`). -/
def tfDivScalar (xs : List ℚ) (c : ℚ) : List ℚ :=
  xs.map (fun x => x / c)

/-- `tf.minimum(normalized, 1.0)`: elementwise minimum with a scalar. -/
def tfMinimumScalar (xs : List ℚ) (c : ℚ) : List ℚ :=
  xs.map (fun x => min x c)

/-! ## The mock length-based predictor (`create_tf_serving_model.py`, lines 19-37) -/

/-- `lengths = tf.strings.length(input_text)` after
`tf.convert_to_tensor(input_text, dtype=tf.string)` (the identity on a
batch that is already a list of strings). -/
def mockLengths (input_text : List String) : List ℕ :=
  tfStringsLength input_text

/-- `scores = tf.minimum(lengths_float / 100.0, 1.0)`. -/
def mockScores (input_text : List String) : List ℚ :=
  tfMinimumScalar (tfDivScalar (tfCastFloat (mockLengths input_text)) 100) 1

/-- The dict returned by `predict`:
`{'toxicity_score': scores, 'text_length': lengths, 'predictions': scores}`,
embedded as an association list in source order. -/
def mockPredict (input_text : List String) : List (String × TVal) :=
  [ ("toxicity_score", TVal.rats (mockScores input_text)),
    ("text_length",    TVal.nats (mockLengths input_text)),
    ("predictions",    TVal.rats (mockScores input_text)) ]

/-- The spec's formula for the mock score, written from the spec's words:
`min(byte-length(text)/100, 1.0)`. -/
def specMockScore (s : String) : ℚ :=
  min ((s.utf8ByteSize : ℚ) / 100) 1

/-! ## The random-weights predictor
(`create_toxicity_model.py`, lines 22-47)

`ToxicityModel` holds two freshly initialised dense layers:
`dense1 = Dense(16, activation='relu')` maps the single scalar feature to 16
units, so its kernel is a `1 × 16` matrix, embedded as `w1 : Fin 16 → ℝ`
with bias `b1`; `dense2 = Dense(1, activation='sigmoid')` maps the 16 units
to one, kernel `16 × 1` embedded as `w2 : Fin 16 → ℝ` with bias `b2`.
No seed is set, so the weights are arbitrary: every statement quantifies
over them. -/
structure ToxicityWeights where
  w1 : Fin 16 → ℝ
  b1 : Fin 16 → ℝ
  w2 : Fin 16 → ℝ
  b2 : ℝ

/-- `relu` activation of `dense1`. -/
def relu (x : ℝ) : ℝ := max x 0

/-- `sigmoid` activation of `dense2`. -/
noncomputable def sigmoid (x : ℝ) : ℝ := 1 / (1 + Real.exp (-x))

/-- `preprocess(text)` (lines 22-25):
`tf.cast(tf.strings.length(text), tf.float32)` on one element. -/
def preprocess (s : String) : ℝ := (s.utf8ByteSize : ℝ)

/-- One row of the forward pass of `serve` on one scalar feature:
`dense2(dense1(feature))` where the `[n, 1]` feature matrix row is the
single float `f`.  The result is the single entry of that row of the
`[n, 1]` output. -/
noncomputable def toxicityForward (W : ToxicityWeights) (f : ℝ) : ℝ :=
  let x : Fin 16 → ℝ := fun j => relu (W.w1 j * f + W.b1 j)
  sigmoid ((∑ j, x j * W.w2 j) + W.b2)

/-- The `toxicity` tensor of `ToxicityModel.serve` (lines 34-41):
`features = tf.map_fn(preprocess, text)` reshaped to `[-1, 1]`, then
`dense2(dense1(features))`; the `[n, 1]` result is embedded as the list of
its rows' single entries. -/
noncomputable def serveScores (W : ToxicityWeights) (text : List String) : List ℝ :=
  (text.map preprocess).map (toxicityForward W)

/-- `tf.greater(xs, c)`: elementwise strict comparison, a boolean tensor
embedded as a list of propositions. -/
def tfGreaterScalar (xs : List ℝ) (c : ℝ) : List Prop :=
  xs.map (fun x => c < x)

/-- The `is_toxic` tensor: `tf.greater(toxicity, 0.5)` (line 46). -/
noncomputable def serveIsToxic (W : ToxicityWeights) (text : List String) : List Prop :=
  tfGreaterScalar (serveScores W text) 0.5

/-- A named output tensor of the random-weights script. -/
inductive SVal
  | reals (xs : List ℝ)
  | bools (xs : List Prop)

/-- The dict returned by `ToxicityModel.serve` (lines 44-47):
`{'toxicity_score': toxicity, 'is_toxic': tf.greater(toxicity, 0.5)}`. -/
noncomputable def servePredict (W : ToxicityWeights) (text : List String) :
    List (String × SVal) :=
  [ ("toxicity_score", SVal.reals (serveScores W text)),
    ("is_toxic",       SVal.bools (serveIsToxic W text)) ]

/-! ## Filesystem model of the export step

A destination directory is `none` when absent, `some fs` when present with
file list `fs` (paths relative to the directory).  `tf.saved_model.save`
writes the artifact's files into the directory, creating it if needed and
replacing files of the same name, but never deletes other files. -/

/-- `os.path.exists(model_dir)`. -/
def osPathExists : Option (List String) → Bool
  | none => false
  | some _ => true

/-- `shutil.rmtree(model_dir)`: the directory and all its contents are gone. -/
def shutilRmtree : Option (List String) → Option (List String) :=
  fun _ => none

/-- `os.makedirs(model_dir, exist_ok=True)`: creates the directory empty if
absent, leaves an existing directory and its contents untouched. -/
def osMakedirsExistOk : Option (List String) → Option (List String)
  | none => some []
  | some fs => some fs

/-- `tf.saved_model.save(..., export_dir)`: writes the artifact files,
keeping any other pre-existing files of the directory. -/
def tfSavedModelSave (artifact : List String) :
    Option (List String) → Option (List String)
  | none => some artifact
  | some fs => some (artifact ++ fs.filter (fun f => f ∉ artifact))

/-- The export step of `create_tf_serving_model.py` (lines 11-14, 44-50):
`if os.path.exists: shutil.rmtree`, then `os.makedirs(exist_ok=True)`,
then `tf.saved_model.save`. -/
def mockExport (pre : Option (List String)) (artifact : List String) :
    Option (List String) :=
  tfSavedModelSave artifact
    (osMakedirsExistOk (if osPathExists pre then shutilRmtree pre else pre))

/-- The export step of `create_toxicity_model.py` (lines 18-19, 59-65):
`os.makedirs(model_path, exist_ok=True)` then `tf.saved_model.save` —
no removal of prior contents. -/
def toxicityExport (pre : Option (List String)) (artifact : List String) :
    Option (List String) :=
  tfSavedModelSave artifact (osMakedirsExistOk pre)

/-- The export step of `download_pretrained_model.py` (lines 13, 20):
`os.makedirs(model_dir, exist_ok=True)` then `tf.saved_model.save` —
no removal of prior contents. -/
def downloadExport (pre : Option (List String)) (artifact : List String) :
    Option (List String) :=
  tfSavedModelSave artifact (osMakedirsExistOk pre)

/-! ## Effect trace of the download script

`download_pretrained_model.py` is straight-line module-level code; its
side-effecting steps, in source order, are embedded as a trace.  When the
hub fetch raises (invalid or unreachable identifier), execution stops at
the `hubLoad` step and the later steps never run. -/

/-- A side-effecting step of the download script. -/
inductive HubStep
  | mkdirs (path : String)
  | hubLoad (url : String)
  | savedModelSave (path : String)
  | listdir (path : String)
  deriving DecidableEq

/-- `model_url = "https://tfhub.dev/tensorflow/toxicity/1"` (line 11). -/
def modelUrl : String := "https://tfhub.dev/tensorflow/toxicity/1"

/-- `model_dir = r"D:\ivan\models\toxicity_model\1"` (line 12). -/
def modelDir : String := "D:\\ivan\\models\\toxicity_model\\1"

/-- The steps the download script executes: the full trace when the fetch
succeeds (`fetchOk = true`), the prefix ending at the raising `hub.load`
call when it fails (`fetchOk = false`). -/
def downloadTrace (fetchOk : Bool) : List HubStep :=
  if fetchOk then
    [ HubStep.mkdirs modelDir, HubStep.hubLoad modelUrl,
      HubStep.savedModelSave modelDir, HubStep.listdir modelDir ]
  else
    [ HubStep.mkdirs modelDir, HubStep.hubLoad modelUrl ]

/-- Steps that write a file into the destination directory. -/
def writesFile : HubStep → Bool
  | HubStep.savedModelSave _ => true
  | _ => false

/-- Steps that mutate the filesystem at all (directory creation included). -/
def writesFilesystem : HubStep → Bool
  | HubStep.mkdirs _ => true
  | HubStep.savedModelSave _ => true
  | _ => false

/-- The remote-fetch step. -/
def isFetch : HubStep → Bool
  | HubStep.hubLoad _ => true
  | _ => false

/-! ## Top-level error propagation of the three entry points

The body of each script is modelled by its outcome: `Except.ok ()` when
every step succeeds, `Except.error e` when some step raises exception `e`.
Each entry point maps that outcome to what the process does. -/

/-- `create_tf_serving_model.py` lines 72-78: `try: create_serving_model()
except Exception as e: print(error); traceback.print_exc()` — the handler
prints and does not re-raise, so the process always exits with status 0.
Result: (exit status, lines printed by the handler). -/
def runMockScript (body : Except String Unit) : ℕ × List String :=
  match body with
  | Except.ok _ => (0, [])
  | Except.error e => (0, ["❌ Error: " ++ e, "<stack trace>"])

/-- `create_toxicity_model.py`: module-level code with no handler — an
exception propagates out of the script. -/
def runToxicityScript (body : Except String Unit) : Except String ℕ :=
  body.map (fun _ => 0)

/-- `download_pretrained_model.py`: module-level code with no handler — an
exception propagates out of the script. -/
def runDownloadScript (body : Except String Unit) : Except String ℕ :=
  body.map (fun _ => 0)

/-- A concrete input string of byte length at least 100, for the spec's
scenario `["hi", <string of length ≥ 100>]`. -/
def longStr : String :=
  "a very very long string exceeding one hundred characters, padded with more words until it is comfortably past the limit"

/-! ## Helper lemmas -/

/-- The sigmoid lies strictly between 0 and 1. -/
theorem sigmoid_mem_Ioo (x : ℝ) : 0 < sigmoid x ∧ sigmoid x < 1 := by
  have he : 0 < Real.exp (-x) := Real.exp_pos _
  constructor
  · exact div_pos one_pos (by linarith)
  · rw [sigmoid, div_lt_one (by linarith)]
    linarith

/-- The mock score chain fuses to a single map of the spec's formula. -/
theorem mockScores_eq_map_spec (input : List String) :
    mockScores input = input.map specMockScore := by
  unfold mockScores tfMinimumScalar tfDivScalar tfCastFloat mockLengths
    tfStringsLength
  rw [List.map_map, List.map_map, List.map_map]
  rfl

/-- The mock score tensor has one entry per input string. -/
theorem mockScores_length (input : List String) :
    (mockScores input).length = input.length := by
  rw [mockScores_eq_map_spec, List.length_map]

/-- The random-weights score tensor has one row per input string. -/
theorem serveScores_length (W : ToxicityWeights) (text : List String) :
    (serveScores W text).length = text.length := by
  simp only [serveScores, List.length_map]

/-- The `is_toxic` tensor has one entry per input string. -/
theorem serveIsToxic_length (W : ToxicityWeights) (text : List String) :
    (serveIsToxic W text).length = text.length := by
  simp only [serveIsToxic, tfGreaterScalar, List.length_map, serveScores_length]

/-- Every element of the mock score tensor is `min` of a nonnegative
rational and 1. -/
theorem mockScores_mem_bounds {input : List String} {x : ℚ}
    (hx : x ∈ mockScores input) : 0 ≤ x ∧ x ≤ 1 := by
  rw [mockScores_eq_map_spec] at hx
  rw [List.mem_map] at hx
  obtain ⟨s, -, rfl⟩ := hx
  exact ⟨le_min (div_nonneg (Nat.cast_nonneg _) (by norm_num)) zero_le_one,
    min_le_right _ _⟩

/-- Every element of the random-weights score tensor is a sigmoid value. -/
theorem serveScores_mem_bounds {W : ToxicityWeights} {text : List String}
    {x : ℝ} (hx : x ∈ serveScores W text) : 0 ≤ x ∧ x ≤ 1 := by
  simp only [serveScores, List.map_map, List.mem_map] at hx
  obtain ⟨s, -, rfl⟩ := hx
  have h := sigmoid_mem_Ioo ((∑ j, relu (W.w1 j * preprocess s + W.b1 j) * W.w2 j) + W.b2)
  exact ⟨le_of_lt (by simpa [toxicityForward] using h.1),
         le_of_lt (by simpa [toxicityForward] using h.2)⟩

/-! ## The claims -/

/-- C1: for every batch, the mock predictor's `toxicity_score` output is
elementwise `min(byte-length/100, 1)`, and on `["hi", s]` with
`byte-length s ≥ 100` it is `[0.02, 1.0]`. -/
theorem mock_score_formula :
    (∀ input : List String, (mockPredict input).lookup "toxicity_score" =
        some (TVal.rats (input.map specMockScore))) ∧
    (∀ s : String, 100 ≤ s.utf8ByteSize →
        mockScores ["hi", s] = [0.02, 1]) := by
  constructor
  · intro input
    simp [mockPredict, List.lookup, mockScores_eq_map_spec]
  · intro s hs
    have h2 : "hi".utf8ByteSize = 2 := by decide
    have hmin : min ((s.utf8ByteSize : ℚ) / 100) 1 = 1 := by
      refine min_eq_right ?_
      rw [le_div_iff₀ (by norm_num), one_mul]
      exact_mod_cast hs
    have htwo : min (((2 : ℕ) : ℚ) / 100) 1 = 0.02 := by
      rw [min_eq_left (by norm_num)]
      norm_num
    rw [mockScores_eq_map_spec]
    simp only [List.map_cons, List.map_nil, specMockScore, h2, hmin, htwo]

/-- Witness for C1 at the concrete batch `["hi", longStr]`. -/
theorem mock_score_formula_witness :
    100 ≤ longStr.utf8ByteSize ∧ mockScores ["hi", longStr] = [0.02, 1] :=
  ⟨by decide, mock_score_formula.2 longStr (by decide)⟩

/-- C2 counterexample: the toxicity-model and download scripts do not clear
the destination — a pre-existing `stale.txt` survives their export. -/
theorem stale_file_survives_export :
    "stale.txt" ∈ (toxicityExport (some ["stale.txt"]) ["saved_model.pb"]).getD [] ∧
    "stale.txt" ∈ (downloadExport (some ["stale.txt"]) ["saved_model.pb"]).getD [] := by
  decide

/-- C2 amended: only the mock script's export clears prior contents (its
result is exactly the new artifact); the other two scripts preserve every
pre-existing file of the destination. -/
theorem export_destination_contents :
    (∀ pre artifact, mockExport pre artifact = some artifact) ∧
    (∀ fs artifact f, f ∈ fs →
        f ∈ (toxicityExport (some fs) artifact).getD []) ∧
    (∀ fs artifact f, f ∈ fs →
        f ∈ (downloadExport (some fs) artifact).getD []) := by
  refine ⟨?_, ?_, ?_⟩
  · intro pre artifact
    cases pre <;>
      simp [mockExport, osPathExists, shutilRmtree, osMakedirsExistOk,
        tfSavedModelSave]
  · intro fs artifact f hf
    simp only [toxicityExport, osMakedirsExistOk, tfSavedModelSave,
      Option.getD_some, List.mem_append, List.mem_filter, decide_eq_true_eq]
    by_cases h : f ∈ artifact
    · exact Or.inl h
    · exact Or.inr (by simpa [h] using hf)
  · intro fs artifact f hf
    simp only [downloadExport, osMakedirsExistOk, tfSavedModelSave,
      Option.getD_some, List.mem_append, List.mem_filter, decide_eq_true_eq]
    by_cases h : f ∈ artifact
    · exact Or.inl h
    · exact Or.inr (by simpa [h] using hf)

/-- Witness for C2 amended at a concrete pre-populated destination. -/
theorem export_destination_contents_witness :
    mockExport (some ["stale.txt"]) ["saved_model.pb"] = some ["saved_model.pb"] ∧
    "stale.txt" ∈ (toxicityExport (some ["stale.txt"]) ["saved_model.pb"]).getD [] ∧
    "stale.txt" ∈ (downloadExport (some ["stale.txt"]) ["saved_model.pb"]).getD [] :=
  ⟨export_destination_contents.1 (some ["stale.txt"]) ["saved_model.pb"],
   export_destination_contents.2.1 ["stale.txt"] ["saved_model.pb"] "stale.txt" (by decide),
   export_destination_contents.2.2 ["stale.txt"] ["saved_model.pb"] "stale.txt" (by decide)⟩

/-- C3 counterexample: a filesystem write (`os.makedirs`) precedes the hub
fetch in the download script's trace. -/
theorem fs_write_precedes_fetch :
    ((downloadTrace false).takeWhile (fun s => ! isFetch s)).filter
        writesFilesystem ≠ [] ∧
    (downloadTrace false).head? = some (HubStep.mkdirs modelDir) := by
  decide

/-- C3 amended: the download script creates the destination directory
(`os.makedirs`) before the fetch, but writes no file before the fetch; when
the fetch fails, no file has been written at all — the only filesystem
effect is the creation of the (empty) destination directory. -/
theorem no_file_written_before_fetch :
    (∀ b, ((downloadTrace b).takeWhile (fun s => ! isFetch s)).filter
        writesFile = []) ∧
    (downloadTrace false).filter writesFile = [] ∧
    (downloadTrace false).filter writesFilesystem = [HubStep.mkdirs modelDir] := by
  refine ⟨fun b => ?_, by decide, by decide⟩
  cases b <;> decide

/-- C4: exactly one of the three scripts (`create_tf_serving_model.py`)
catches every failure of its main routine at top level, prints the error
and a stack trace without re-raising, and exits with status 0; the other
two propagate any exception. -/
theorem single_script_catches_all_failures :
    (∀ body, (runMockScript body).1 = 0) ∧
    (∀ e, runMockScript (Except.error e) =
        (0, ["❌ Error: " ++ e, "<stack trace>"])) ∧
    (∀ e, runToxicityScript (Except.error e) = Except.error e) ∧
    (∀ e, runDownloadScript (Except.error e) = Except.error e) := by
  refine ⟨fun body => ?_, fun e => rfl, fun e => rfl, fun e => rfl⟩
  cases body <;> rfl

/-- C5 counterexample: the mock predictor's output does not have exactly
the fields `toxicity_score` and `text_length` — it also has `predictions`. -/
theorem mock_output_has_extra_field :
    ¬ (∀ k ∈ (mockPredict []).map Prod.fst,
        k = "toxicity_score" ∨ k = "text_length") := by
  decide

/-- C5 amended: the mock predictor's output mapping has exactly the fields
`toxicity_score`, `text_length` and `predictions` (in that order); the
random-weights predictor's has exactly `toxicity_score` and `is_toxic`. -/
theorem output_field_sets :
    (∀ input, (mockPredict input).map Prod.fst =
        ["toxicity_score", "text_length", "predictions"]) ∧
    (∀ W text, (servePredict W text).map Prod.fst =
        ["toxicity_score", "is_toxic"]) :=
  ⟨fun _ => rfl, fun _ _ => rfl⟩

/-- C6: every element of the `toxicity_score` output lies in `[0, 1]`, for
both the mock and the random-weights predictor (out-of-range indices read
the default `0`, which also lies in `[0, 1]`). -/
theorem toxicity_score_in_unit_interval :
    (∀ input i, 0 ≤ (mockScores input).getD i 0 ∧
        (mockScores input).getD i 0 ≤ 1) ∧
    (∀ W text i, 0 ≤ (serveScores W text).getD i 0 ∧
        (serveScores W text).getD i 0 ≤ 1) := by
  constructor
  · intro input i
    by_cases h : i < (mockScores input).length
    · rw [List.getD_eq_getElem _ _ h]
      exact mockScores_mem_bounds (List.getElem_mem h)
    · rw [List.getD_eq_default _ _ (le_of_not_lt h)]
      norm_num
  · intro W text i
    by_cases h : i < (serveScores W text).length
    · rw [List.getD_eq_getElem _ _ h]
      exact serveScores_mem_bounds (List.getElem_mem h)
    · rw [List.getD_eq_default _ _ (le_of_not_lt h)]
      norm_num

/-- C7: the output mapping contains a `toxicity_score` field whose batch
length equals the input batch length, for both predictors. -/
theorem toxicity_score_batch_length :
    (∀ input, (mockPredict input).lookup "toxicity_score" =
        some (TVal.rats (mockScores input)) ∧
      (mockScores input).length = input.length) ∧
    (∀ W text, (servePredict W text).lookup "toxicity_score" =
        some (SVal.reals (serveScores W text)) ∧
      (serveScores W text).length = text.length) := by
  constructor
  · intro input
    exact ⟨by simp [mockPredict, List.lookup], mockScores_length input⟩
  · intro W text
    exact ⟨by simp [servePredict, List.lookup], serveScores_length W text⟩

/-- C8: on the empty input batch, both predictors return their output
mapping with every field an empty batch. -/
theorem empty_batch_gives_empty_outputs :
    mockPredict [] = [("toxicity_score", TVal.rats []),
      ("text_length", TVal.nats []), ("predictions", TVal.rats [])] ∧
    (∀ W, servePredict W [] = [("toxicity_score", SVal.reals []),
      ("is_toxic", SVal.bools [])]) :=
  ⟨rfl, fun _ => rfl⟩

/-- C9: in the mock script, the `predictions` field of the output mapping
is the same tensor as the `toxicity_score` field. -/
theorem predictions_equals_toxicity_score :
    ∀ input, (mockPredict input).lookup "predictions" =
      (mockPredict input).lookup "toxicity_score" := by
  intro input
  simp [mockPredict, List.lookup]

/-- C10: in the random-weights script, `is_toxic` holds at an index exactly
when the `toxicity_score` there is strictly greater than 0.5 (out-of-range
indices read the defaults `False` and `0`, for which both sides fail). -/
theorem is_toxic_iff_score_above_half :
    ∀ W text i, (serveIsToxic W text).getD i False ↔
      0.5 < (serveScores W text).getD i 0 := by
  intro W text i
  by_cases h : i < text.length
  · have h1 : i < (serveIsToxic W text).length := by
      rw [serveIsToxic_length]; exact h
    have h2 : i < (serveScores W text).length := by
      rw [serveScores_length]; exact h
    rw [List.getD_eq_getElem _ _ h1, List.getD_eq_getElem _ _ h2]
    simp [serveIsToxic, tfGreaterScalar]
  · have h1 : (serveIsToxic W text).length ≤ i := by
      rw [serveIsToxic_length]; omega
    have h2 : (serveScores W text).length ≤ i := by
      rw [serveScores_length]; omega
    rw [List.getD_eq_default _ _ h1, List.getD_eq_default _ _ h2]
    norm_num

end IvanChat
